import Mathlib

/-!
# Verification of the `asisten` Telegram-assistant bot

Shallow embedding of the data model and the operations of the bot
(point economy, referral system, conversation memory, broadcast,
admin gating, message splitting), translated from the Python sources
under `src/`, together with theorems settling the frozen claims.

Conventions:
* Python `int` is modelled as `Int`; list indices and lengths as `Nat`.
* Mutation of a Python object is modelled by returning the updated record.
* A MongoDB collection of user documents is modelled as a `List User`;
  `find_one` returns the first matching record, `update_one` rewrites the
  first matching record.
* Timestamps are modelled by `Wib`: the local calendar date (a day
  ordinal) plus the seconds elapsed since local midnight, both already
  in the configured timezone.  The code only ever compares calendar
  dates (`now.date() > last_reset.date()`), which the model mirrors.
-/

/-- Environment-configurable settings (`src/config/settings.py`).
Defaults mirror the `os.getenv(..., default)` fallbacks. -/
structure Settings where
  OWNER_ID : Int := 0
  DAILY_POINTS : Int := 3
  REFERRAL_POINTS : Int := 3
deriving DecidableEq, Repr

/-- `MAX_MEMORY_MESSAGES` is the literal 50 in `src/config/settings.py`. -/
def MAX_MEMORY_MESSAGES : Nat := 50

/-- `MAX_MESSAGE_LENGTH` is the literal 4096 in `src/config/settings.py`. -/
def MAX_MESSAGE_LENGTH : Nat := 4096

/-- A point in time, already converted to the configured (WIB) timezone:
the local calendar date as a day ordinal plus the seconds since local
midnight.  The source compares only the `date()` parts. -/
structure Wib where
  day : Int
  sod : Nat
deriving DecidableEq, Repr

/-- The persistent user record (`src/models/user.py`, `User.__init__`).
Presentation-only fields (`username`, `first_name`, `last_name`,
`join_date`, `has_clone_bot`, `clone_bot_id`) are omitted: no claim and
no embedded operation reads them. -/
structure User where
  user_id : Int
  is_banned : Bool
  is_admin : Bool
  daily_points : Int
  total_points_used : Int
  last_reset : Wib
  referral_code : Option String
  referred_by : Option Int
  referral_count : Int
  referral_points : Int
  last_activity : Wib
  message_count : Int
  image_generated : Int
deriving DecidableEq, Repr

/-- `User._check_daily_reset` (`src/models/user.py` lines 96-110):
if the current local date is strictly later than the date of
`last_reset`, restore `daily_points` to the configured allotment and
stamp `last_reset := now`; otherwise leave the record untouched. -/
def User.check_daily_reset (u : User) (s : Settings) (now : Wib) : User :=
  if u.last_reset.day < now.day then
    { u with daily_points := s.DAILY_POINTS, last_reset := now }
  else u

/-- `User.can_generate_image` (`src/models/user.py` lines 70-78):
banned users are refused before any reset check; otherwise the daily
reset is applied and the combined balance must be positive. -/
def User.can_generate_image (u : User) (s : Settings) (now : Wib) : User × Bool :=
  if u.is_banned then (u, false)
  else
    let u' := u.check_daily_reset s now
    (u', decide (0 < u'.daily_points + u'.referral_points))

/-- `User.use_point` (`src/models/user.py` lines 80-94). -/
def User.use_point (u : User) (s : Settings) (now : Wib) (point_type : String) :
    User × Bool :=
  let (u', ok) := u.can_generate_image s now
  if !ok then (u', false)
  else if point_type == "referral" && decide (0 < u'.referral_points) then
    ({ u' with referral_points := u'.referral_points - 1,
               total_points_used := u'.total_points_used + 1,
               image_generated := u'.image_generated + 1 }, true)
  else if 0 < u'.daily_points then
    ({ u' with daily_points := u'.daily_points - 1,
               total_points_used := u'.total_points_used + 1,
               image_generated := u'.image_generated + 1 }, true)
  else (u', false)

/-- `PointService.can_user_generate_image`
(`src/services/point_service.py` lines 25-35): same checks as the model
method, spelled out on the service. -/
def PointService.can_user_generate_image (s : Settings) (now : Wib) (u : User) :
    User × Bool :=
  if u.is_banned then (u, false)
  else
    let u' := u.check_daily_reset s now
    (u', decide (0 < u'.daily_points + u'.referral_points))

/-- `PointService.use_point_for_image`
(`src/services/point_service.py` lines 37-67).  `"auto"` resolves to
`"referral"` when referral points remain, else `"daily"`.  The
`update_one` persisting the record rewrites the stored document with
the same state, so it is invisible here; the surrounding
`try/except` never fires in this pure model. -/
def PointService.use_point_for_image (s : Settings) (now : Wib) (u : User)
    (point_type : String := "auto") : User × Bool :=
  let (u1, ok) := PointService.can_user_generate_image s now u
  if !ok then (u1, false)
  else
    let pt := if point_type == "auto" then
        (if 0 < u1.referral_points then "referral" else "daily")
      else point_type
    u1.use_point s now pt

/-- The attribute `pytz.timedelta` read by `get_user_points_info`
(`src/services/point_service.py` line 78).  The `pytz` package defines
no `timedelta` (the class lives in the standard `datetime` module, and
`point_service.py` imports only `datetime` and `time` from it), so the
attribute lookup raises `AttributeError` at runtime; the model makes the
lookup `none`. -/
def pytz_timedelta : Option (Nat → Nat) := none

/-- The dictionary produced by a successful `get_user_points_info`. -/
structure PointsInfo where
  daily_points : Int
  referral_points : Int
  total_points : Int
  total_points_used : Int
  images_generated : Int
  can_generate : Bool
  hours : Nat
  minutes : Nat
  text : String
deriving DecidableEq, Repr

/-- `PointService.get_user_points_info`
(`src/services/point_service.py` lines 69-101).  The daily-reset check
on line 73 runs first; the computation of `tomorrow` on line 78 then
reads `pytz.timedelta`, whose failure is caught by the `except` clause,
which returns the empty dict (modelled as `none`). -/
def PointService.get_user_points_info (s : Settings) (now : Wib) (u : User) :
    User × Option PointsInfo :=
  let u' := u.check_daily_reset s now
  match pytz_timedelta with
  | none => (u', none)
  | some _ =>
    let secondsUntilReset := 86400 - now.sod
    let hours := secondsUntilReset / 3600
    let minutes := secondsUntilReset % 3600 / 60
    (u', some
      { daily_points := u'.daily_points
        referral_points := u'.referral_points
        total_points := u'.daily_points + u'.referral_points
        total_points_used := u'.total_points_used
        images_generated := u'.image_generated
        can_generate := (PointService.can_user_generate_image s now u').2
        hours := hours
        minutes := minutes
        text := toString hours ++ "h " ++ toString minutes ++ "m" })

/-- Outcome of a `/image` invocation, standing for the reply the
handler sends on each early return. -/
inductive ImageOutcome where
  | no_points
  | bad_format
  | short_prompt
  | point_failed
  | refunded
deriving DecidableEq, Repr

/-- `UserHandlers.handle_image_generation`
(`src/handlers/user_handlers.py` lines 533-640), starting at the
eligibility check on line 543 (`get_or_create_user` only refreshes
activity fields).  `nCommandParts` is `len(message.command)` and
`promptLen` the length of the joined prompt.  Image generation is
unimplemented, so both the normal path and its exception handler
refund by crediting `daily_points` and undoing the usage counters;
Telegram sends are assumed not to raise. -/
def UserHandlers.handle_image_generation (s : Settings) (now : Wib) (u : User)
    (nCommandParts : Nat) (promptLen : Nat) : User × ImageOutcome :=
  let (u1, can) := PointService.can_user_generate_image s now u
  if !can then (u1, .no_points)
  else if nCommandParts < 2 then (u1, .bad_format)
  else if promptLen < 5 then (u1, .short_prompt)
  else
    let (u2, ok) := PointService.use_point_for_image s now u1 "auto"
    if !ok then (u2, .point_failed)
    else
      ({ u2 with daily_points := u2.daily_points + 1,
                 total_points_used := u2.total_points_used - 1,
                 image_generated := u2.image_generated - 1 }, .refunded)

/-- A conversation message (`src/models/conversation.py`, `Message`).
The free-form `metadata` dict is omitted: nothing embedded reads it. -/
structure Message where
  role : String
  content : String
  message_type : String
  timestamp : Wib
deriving DecidableEq, Repr

/-- A per-user conversation (`src/models/conversation.py`,
`Conversation`). -/
structure Conversation where
  user_id : Int
  messages : List Message
  created_at : Wib
  updated_at : Wib
deriving DecidableEq, Repr

/-- `Conversation.add_message` (`src/models/conversation.py` lines
51-59): append, stamp `updated_at`, then keep only the last
`MAX_MEMORY_MESSAGES` entries (`self.messages[-MAX:]`). -/
def Conversation.add_message (c : Conversation) (role content : String)
    (message_type : String := "text") (now : Wib) : Conversation :=
  let ms := c.messages ++ [{ role := role, content := content,
                             message_type := message_type, timestamp := now }]
  { c with
    updated_at := now
    messages :=
      if MAX_MEMORY_MESSAGES < ms.length then
        ms.drop (ms.length - MAX_MEMORY_MESSAGES)
      else ms }

/-- `Conversation.get_recent_messages` (`src/models/conversation.py`
lines 61-63): `self.messages[-limit:] if limit > 0 else self.messages`.
A positive `limit` slices the last `min limit length` entries; zero or
negative returns the whole list. -/
def Conversation.get_recent_messages (c : Conversation) (limit : Int := 10) :
    List Message :=
  if 0 < limit then c.messages.drop (c.messages.length - limit.toNat)
  else c.messages

/-- One pending append: role, content, message type, timestamp.
`MemoryService.add_message` (`src/services/memory_service.py` lines
52-74) forwards each of these to `Conversation.add_message` and then
persists; folding a list of them models a sequence of appends. -/
def Conversation.add_messages (c : Conversation)
    (items : List (String × String × String × Wib)) : Conversation :=
  items.foldl (fun acc it => acc.add_message it.1 it.2.1 it.2.2.1 it.2.2.2) c

/-- The `Message` record built from one pending append. -/
def Conversation.pendingMessage (it : String × String × String × Wib) : Message :=
  { role := it.1, content := it.2.1, message_type := it.2.2.1, timestamp := it.2.2.2 }

/-- `users_collection.find_one({"user_id": ...})` as used by
`UserService.get_user` (`src/services/user_service.py` lines 19-28). -/
def UserService.get_user (store : List User) (uid : Int) : Option User :=
  store.find? (fun v => v.user_id == uid)

/-- `users_collection.find_one({"referral_code": ...})` as used by
`UserService.get_user_by_referral_code` (`src/services/user_service.py`
lines 114-123). -/
def UserService.get_user_by_referral_code (store : List User) (code : String) :
    Option User :=
  store.find? (fun v => v.referral_code == some code)

/-- Mongo `update_one` with a `$set` of the full document, keyed on
`user_id`: rewrite the first matching record
(`UserService.update_user`, `src/services/user_service.py` lines 52-62). -/
def UserService.update_user (store : List User) (u : User) : List User :=
  match store with
  | [] => []
  | v :: rest =>
    if v.user_id == u.user_id then u :: rest
    else v :: UserService.update_user rest u

/-- Rewrite the first record with the given id through `f`
(the `update_one` pattern of `ban_user` / `set_admin`). -/
def UserService.update_first (store : List User) (uid : Int) (f : User → User) :
    List User :=
  match store with
  | [] => []
  | v :: rest =>
    if v.user_id == uid then f v :: rest
    else v :: UserService.update_first rest uid f

/-- `UserService.ban_user` (`src/services/user_service.py` lines
75-86): `$set {is_banned: true}` on the first match; the returned flag
is `modified_count > 0`, true only when a matching record existed and
was not already banned. -/
def UserService.ban_user (store : List User) (uid : Int) : List User × Bool :=
  (UserService.update_first store uid (fun v => { v with is_banned := true }),
   match UserService.get_user store uid with
   | some v => !v.is_banned
   | none => false)

/-- `UserService.set_admin` (`src/services/user_service.py` lines
101-112), same `update_one` pattern for the `is_admin` flag. -/
def UserService.set_admin (store : List User) (uid : Int) (flag : Bool) :
    List User × Bool :=
  (UserService.update_first store uid (fun v => { v with is_admin := flag }),
   match UserService.get_user store uid with
   | some v => v.is_admin != flag
   | none => false)

/-- `UserService.get_users_for_broadcast`
(`src/services/user_service.py` lines 218-235): ids of every user,
restricted to non-banned ones when `exclude_banned`. -/
def UserService.get_users_for_broadcast (store : List User)
    (exclude_banned : Bool := true) : List Int :=
  ((if exclude_banned then store.filter (fun v => !v.is_banned) else store).map
    (fun v => v.user_id))

/-- `ReferralService.process_referral`
(`src/services/referral_service.py` lines 23-60).  Returns the success
flag, the localized reply, and the (possibly updated) user store.
`if new_user and new_user.referred_by:` tests Python truthiness, so a
stored id must be non-zero to count as "already referred". -/
def ReferralService.process_referral (s : Settings) (store : List User)
    (new_user_id : Int) (referral_code : String) : Bool × String × List User :=
  match UserService.get_user_by_referral_code store referral_code with
  | none => (false, "Kode referral tidak valid.", store)
  | some referrer =>
    if referrer.user_id == new_user_id then
      (false, "Anda tidak bisa menggunakan kode referral sendiri.", store)
    else
      match UserService.get_user store new_user_id with
      | some new_user =>
        if (new_user.referred_by.getD 0) != 0 then
          (false, "Anda sudah menggunakan kode referral sebelumnya.", store)
        else
          let new_user' := { new_user with
            referred_by := some referrer.user_id,
            referral_points := new_user.referral_points + s.REFERRAL_POINTS }
          let store1 := UserService.update_user store new_user'
          let referrer' := { referrer with
            referral_count := referrer.referral_count + 1,
            referral_points := referrer.referral_points + s.REFERRAL_POINTS }
          let store2 := UserService.update_user store1 referrer'
          (true,
           "Berhasil! Anda dan yang mengundang masing-masing mendapat " ++
             toString s.REFERRAL_POINTS ++ " poin.",
           store2)
      | none => (false, "User baru belum terdaftar.", store)

/-- Result dict of `execute_broadcast`. -/
structure BroadcastResult where
  success : Nat
  failed : Nat
  total : Nat
deriving DecidableEq, Repr

/-- The batching of `range(0, len(user_ids), 30)`: successive slices of
at most 30 ids.  The fuel argument bounds the recursion; `l.length`
iterations always suffice. -/
def batchesAux : Nat → List Int → List (List Int)
  | 0, _ => []
  | _, [] => []
  | n + 1, l => l.take 30 :: batchesAux n (l.drop 30)

/-- The batches of at most 30 ids sent per iteration of
`execute_broadcast`. -/
def batches (l : List Int) : List (List Int) := batchesAux l.length l

/-- `AdminHandlers.execute_broadcast`
(`src/handlers/admin_handlers.py` lines 979-1024).  The recipients are
every non-banned user in the store; within each batch of 30 the
initiating admin is skipped, and `sendOk` tells whether the one send to
a given user succeeds (an exception from `gather` is counted exactly
like a `False` return).  `total` is the length of the full fetched id
list. -/
def AdminHandlers.execute_broadcast (store : List User) (admin_id : Int)
    (sendOk : Int → Bool) : BroadcastResult :=
  let user_ids := UserService.get_users_for_broadcast store true
  if user_ids.isEmpty then { success := 0, failed := 0, total := 0 }
  else
    let counted := (batches user_ids).foldl
      (fun acc batch =>
        let tasks := batch.filter (fun uid => uid != admin_id)
        (acc.1 + (tasks.filter (fun uid => sendOk uid)).length,
         acc.2 + (tasks.filter (fun uid => !sendOk uid)).length))
      (0, 0)
    { success := counted.1, failed := counted.2, total := user_ids.length }

/-- Round a rational to one decimal place, as the `:.1f` formatting of
`success / max(total, 1) * 100` does in `handle_confirm_broadcast`
(ties of the binary floating-point rendering are abstracted away). -/
def roundTo1 (q : ℚ) : ℚ := ((round (10 * q) : ℤ) : ℚ) / 10

/-- The success rate displayed by `CallbackHandlers.handle_confirm_broadcast`
(`src/handlers/callback_handlers.py` line 341):
`result['success'] / max(result['total'], 1) * 100` shown with one
decimal. -/
def CallbackHandlers.broadcast_rate (r : BroadcastResult) : ℚ :=
  roundTo1 ((r.success : ℚ) / ((max r.total 1 : Nat) : ℚ) * 100)

/-- The running bot instance (`src/core/bot.py`): whether it is a clone
and, for clones, the designated clone admin. -/
structure BotInstance where
  is_clone : Bool
  clone_admin_id : Int
deriving DecidableEq, Repr

/-- `TelegramBot.is_owner` (`src/core/bot.py` lines 139-141). -/
def TelegramBot.is_owner (s : Settings) (uid : Int) : Bool :=
  uid == s.OWNER_ID

/-- `TelegramBot.is_admin` (`src/core/bot.py` lines 143-154): owner, or
the clone's designated admin on a clone instance.  The final comment in
the source reads "Check database for admin status / This will be
implemented in user_service" and the function then returns `False`: the
database-backed `is_admin` flag is never consulted, which is why the
user store is not even an argument here. -/
def TelegramBot.is_admin (s : Settings) (b : BotInstance) (uid : Int) : Bool :=
  if TelegramBot.is_owner s uid then true
  else if b.is_clone && uid == b.clone_admin_id then true
  else false

/-- `AdminHandlers.is_admin` (`src/handlers/admin_handlers.py` lines
68-70). -/
def AdminHandlers.is_admin (s : Settings) (b : BotInstance) (uid : Int) : Bool :=
  TelegramBot.is_admin s b uid || TelegramBot.is_owner s uid

/-- The fixed Indonesian access-denied reply sent by the gated admin
handlers. -/
def access_denied_reply : String := "❌ Anda tidak memiliki akses admin."

/-- Outcome of `/ban`, standing for the reply sent on each path. -/
inductive BanOutcome where
  | denied
  | bad_format
  | bad_id
  | owner_target
  | banned
  | failed
deriving DecidableEq, Repr

/-- `AdminHandlers.handle_ban_user` (`src/handlers/admin_handlers.py`
lines 134-210).  `arg` models the first command argument: `none` when
absent, `some none` when not numeric, `some (some uid)` when parsed.
The admin gate runs before any other step; the only store mutation is
the `ban_user` update. -/
def AdminHandlers.handle_ban_user (s : Settings) (b : BotInstance)
    (store : List User) (caller : Int) (arg : Option (Option Int)) :
    List User × BanOutcome :=
  if !(AdminHandlers.is_admin s b caller) then (store, .denied)
  else
    match arg with
    | none => (store, .bad_format)
    | some none => (store, .bad_id)
    | some (some uid) =>
      if TelegramBot.is_owner s uid then (store, .owner_target)
      else
        let (store', ok) := UserService.ban_user store uid
        if ok then (store', .banned) else (store', .failed)

/-- Outcome of `/addadmin`. -/
inductive AddAdminOutcome where
  | denied_owner_only
  | bad_format
  | bad_id
  | added
  | failed
deriving DecidableEq, Repr

/-- `AdminHandlers.handle_add_admin` (`src/handlers/admin_handlers.py`
lines 511-570): gated on `is_owner` alone ("Hanya owner yang bisa
menambah admin."), not on the admin check. -/
def AdminHandlers.handle_add_admin (s : Settings) (store : List User)
    (caller : Int) (arg : Option (Option Int)) : List User × AddAdminOutcome :=
  if !(TelegramBot.is_owner s caller) then (store, .denied_owner_only)
  else
    match arg with
    | none => (store, .bad_format)
    | some none => (store, .bad_id)
    | some (some uid) =>
      let (store', ok) := UserService.set_admin store uid true
      if ok then (store', .added) else (store', .failed)

/-- Index of the last newline in `l.take bound`, i.e. Python
`text.rfind('\n', 0, bound)` (with `none` for `-1`). -/
def lastNewlineIdx : List Char → Option Nat
  | [] => none
  | c :: cs =>
    match lastNewlineIdx cs with
    | some i => some (i + 1)
    | none => if c = '\n' then some 0 else none

/-- `text.rfind('\n', 0, maxLen)`. -/
def rfindNewline (l : List Char) (maxLen : Nat) : Option Nat :=
  lastNewlineIdx (l.take maxLen)

/-- The `while len(text) > max_length` loop shared by
`TelegramBot._split_message` (`src/core/bot.py` lines 178-193) and
`split_text_by_length` (`src/utils/helpers.py` lines 275-296): cut at
the last newline before the limit (at the limit when there is none),
strip the leading newlines off the remainder, and finally append the
non-empty remainder.  The fuel argument bounds the iteration count;
for a positive `maxLen` each iteration removes at least one character,
so `text.length + 1` units always suffice. -/
def splitLoop : Nat → List Char → Nat → List (List Char)
  | 0, _, _ => []
  | fuel + 1, text, maxLen =>
    if maxLen < text.length then
      let pos := (rfindNewline text maxLen).getD maxLen
      text.take pos ::
        splitLoop fuel ((text.drop pos).dropWhile (fun c => c == '\n')) maxLen
    else if text.isEmpty then [] else [text]

/-- `TelegramBot._split_message` (`src/core/bot.py` lines 178-193),
always called with `settings.MAX_MESSAGE_LENGTH`. -/
def TelegramBot.split_message (text : List Char) : List (List Char) :=
  splitLoop (text.length + 1) text MAX_MESSAGE_LENGTH

/-- `split_text_by_length` (`src/utils/helpers.py` lines 275-296): the
early return hands back the short text as a single chunk, otherwise the
same loop runs. -/
def split_text_by_length (text : List Char) (max_length : Nat := 4096) :
    List (List Char) :=
  if text.length ≤ max_length then [text]
  else splitLoop (text.length + 1) text max_length

/-- A plain registered user used to instantiate witnesses. -/
def baseUser : User :=
  { user_id := 100000001
    is_banned := false
    is_admin := false
    daily_points := 3
    total_points_used := 0
    last_reset := ⟨0, 0⟩
    referral_code := some "ABCD1234"
    referred_by := none
    referral_count := 0
    referral_points := 0
    last_activity := ⟨0, 0⟩
    message_count := 0
    image_generated := 0 }

/-- A fresh, empty conversation used to instantiate witnesses. -/
def emptyConversation : Conversation :=
  { user_id := 100000001
    messages := []
    created_at := ⟨0, 0⟩
    updated_at := ⟨0, 0⟩ }

/-- Settings with owner id 1, for the admin-gate instances. -/
def ownerSettings : Settings := { OWNER_ID := 1 }

/-- The main (non-clone) bot instance. -/
def mainBot : BotInstance := { is_clone := false, clone_admin_id := 0 }

/-- A user whose database `is_admin` flag is set. -/
def flaggedAdminUser : User := { baseUser with user_id := 42, is_admin := true }

theorem check_daily_reset_same_day (s : Settings) (now : Wib) (u : User)
    (h : u.last_reset.day = now.day) : u.check_daily_reset s now = u := by
  unfold User.check_daily_reset
  rw [h]
  simp

theorem can_user_generate_image_same_day (s : Settings) (now : Wib) (u : User)
    (hb : u.is_banned = false) (h : u.last_reset.day = now.day) :
    PointService.can_user_generate_image s now u =
      (u, decide (0 < u.daily_points + u.referral_points)) := by
  unfold PointService.can_user_generate_image
  rw [hb, check_daily_reset_same_day s now u h]
  simp

theorem use_point_referral_eval (s : Settings) (now : Wib) (u : User)
    (hb : u.is_banned = false) (h : u.last_reset.day = now.day)
    (hpos : 0 < u.daily_points + u.referral_points)
    (hr : 0 < u.referral_points) :
    u.use_point s now "referral" =
      ({ u with referral_points := u.referral_points - 1,
                total_points_used := u.total_points_used + 1,
                image_generated := u.image_generated + 1 }, true) := by
  unfold User.use_point User.can_generate_image
  rw [check_daily_reset_same_day s now u h]
  simp [hb, hpos, hr]

theorem use_point_daily_eval (s : Settings) (now : Wib) (u : User)
    (hb : u.is_banned = false) (h : u.last_reset.day = now.day)
    (hpos : 0 < u.daily_points + u.referral_points)
    (hd : 0 < u.daily_points) :
    u.use_point s now "daily" =
      ({ u with daily_points := u.daily_points - 1,
                total_points_used := u.total_points_used + 1,
                image_generated := u.image_generated + 1 }, true) := by
  unfold User.use_point User.can_generate_image
  rw [check_daily_reset_same_day s now u h]
  simp [hb, hpos, hd]

theorem use_point_for_image_auto_referral (s : Settings) (now : Wib) (u : User)
    (hb : u.is_banned = false) (h : u.last_reset.day = now.day)
    (hpos : 0 < u.daily_points + u.referral_points)
    (hr : 0 < u.referral_points) :
    PointService.use_point_for_image s now u "auto" =
      ({ u with referral_points := u.referral_points - 1,
                total_points_used := u.total_points_used + 1,
                image_generated := u.image_generated + 1 }, true) := by
  unfold PointService.use_point_for_image
  rw [can_user_generate_image_same_day s now u hb h]
  simp [hpos, hr, use_point_referral_eval s now u hb h hpos hr]

theorem use_point_for_image_auto_daily (s : Settings) (now : Wib) (u : User)
    (hb : u.is_banned = false) (h : u.last_reset.day = now.day)
    (hpos : 0 < u.daily_points + u.referral_points)
    (hr : u.referral_points ≤ 0) :
    PointService.use_point_for_image s now u "auto" =
      ({ u with daily_points := u.daily_points - 1,
                total_points_used := u.total_points_used + 1,
                image_generated := u.image_generated + 1 }, true) := by
  have hd : 0 < u.daily_points := by omega
  unfold PointService.use_point_for_image
  rw [can_user_generate_image_same_day s now u hb h]
  simp [hpos, not_lt.mpr hr, use_point_daily_eval s now u hb h hpos hd]

/-- C2 (code_bug): `get_user_points_info` is supposed to return the
balances, usage counters, eligibility and the time until the next local
midnight, but line 78 of `src/services/point_service.py` evaluates
`pytz.timedelta(days=1)`, an attribute `pytz` does not have, so every
call raises `AttributeError` and the `except` clause returns the empty
dict — for every settings, time and user alike. -/
theorem c2_points_info_always_empty (s : Settings) (now : Wib) (u : User) :
    (PointService.get_user_points_info s now u).2 = none := rfl

/-- C4 (confirmed): a `last_reset` date strictly before the current
local date makes the reset restore `daily_points` to the configured
allotment and stamp `last_reset`; the same local date leaves the record
untouched (whatever the hour).  The eligibility check (for non-banned
users) and the points query both apply exactly this reset first. -/
theorem c4_daily_reset_on_new_date (s : Settings) (now : Wib) (u : User) :
    (u.last_reset.day < now.day →
      (u.check_daily_reset s now).daily_points = s.DAILY_POINTS ∧
      (u.check_daily_reset s now).last_reset = now) ∧
    (u.last_reset.day = now.day → u.check_daily_reset s now = u) ∧
    (u.is_banned = false →
      (PointService.can_user_generate_image s now u).1 = u.check_daily_reset s now) ∧
    (PointService.get_user_points_info s now u).1 = u.check_daily_reset s now := by
  refine ⟨fun h => ?_, fun h => check_daily_reset_same_day s now u h, fun hb => ?_, rfl⟩
  · unfold User.check_daily_reset
    simp [h]
  · unfold PointService.can_user_generate_image
    simp [hb]

/-- Witness for C4: a user last reset on day 0 is restored on day 1
(default allotment 3); the same user checked later on day 0 itself —
80000 seconds into the day — is left untouched. -/
theorem c4_daily_reset_on_new_date_witness :
    (baseUser.last_reset.day < (⟨1, 40000⟩ : Wib).day ∧
      (baseUser.check_daily_reset {} ⟨1, 40000⟩).daily_points = 3 ∧
      (baseUser.check_daily_reset {} ⟨1, 40000⟩).last_reset = ⟨1, 40000⟩) ∧
    (baseUser.last_reset.day = (⟨0, 80000⟩ : Wib).day ∧
      baseUser.check_daily_reset {} ⟨0, 80000⟩ = baseUser) :=
  ⟨⟨by decide, (c4_daily_reset_on_new_date {} ⟨1, 40000⟩ baseUser).1 (by decide)⟩,
   ⟨by decide, (c4_daily_reset_on_new_date {} ⟨0, 80000⟩ baseUser).2.1 (by decide)⟩⟩

/-- C3 (confirmed): with `referral_points = 2` and `daily_points = 3`
(non-banned, already reset today), three `use_point_for_image("auto")`
calls consume the referral balance first: after two calls
`referral_points = 0` and `daily_points = 3`, and the third call
finally takes `daily_points` down to 2. -/
theorem c3_auto_uses_referral_before_daily (s : Settings) (now : Wib) (u : User)
    (hb : u.is_banned = false) (hday : u.last_reset.day = now.day)
    (hr : u.referral_points = 2) (hd : u.daily_points = 3) :
    (PointService.use_point_for_image s now
        (PointService.use_point_for_image s now u "auto").1 "auto").1.referral_points = 0 ∧
    (PointService.use_point_for_image s now
        (PointService.use_point_for_image s now u "auto").1 "auto").1.daily_points = 3 ∧
    (PointService.use_point_for_image s now
        (PointService.use_point_for_image s now
          (PointService.use_point_for_image s now u "auto").1 "auto").1 "auto").1.referral_points = 0 ∧
    (PointService.use_point_for_image s now
        (PointService.use_point_for_image s now
          (PointService.use_point_for_image s now u "auto").1 "auto").1 "auto").1.daily_points = 2 := by
  obtain ⟨uid, ban, adm, dp, tpu, lr, code, rb, rc, rp, la, mc, ig⟩ := u
  simp only [User.is_banned] at hb
  simp only [User.referral_points] at hr
  simp only [User.daily_points] at hd
  simp only [User.last_reset] at hday
  subst hb hr hd
  simp [PointService.use_point_for_image, PointService.can_user_generate_image,
        User.use_point, User.can_generate_image, User.check_daily_reset, hday]

/-- Witness for C3 at a concrete user: `baseUser` with two referral
points, on the morning of day 0. -/
theorem c3_auto_uses_referral_before_daily_witness :
    (PointService.use_point_for_image {} ⟨0, 500⟩
        (PointService.use_point_for_image {} ⟨0, 500⟩
          { baseUser with referral_points := 2 } "auto").1 "auto").1.referral_points = 0 ∧
    (PointService.use_point_for_image {} ⟨0, 500⟩
        (PointService.use_point_for_image {} ⟨0, 500⟩
          { baseUser with referral_points := 2 } "auto").1 "auto").1.daily_points = 3 ∧
    (PointService.use_point_for_image {} ⟨0, 500⟩
        (PointService.use_point_for_image {} ⟨0, 500⟩
          (PointService.use_point_for_image {} ⟨0, 500⟩
            { baseUser with referral_points := 2 } "auto").1 "auto").1 "auto").1.referral_points = 0 ∧
    (PointService.use_point_for_image {} ⟨0, 500⟩
        (PointService.use_point_for_image {} ⟨0, 500⟩
          (PointService.use_point_for_image {} ⟨0, 500⟩
            { baseUser with referral_points := 2 } "auto").1 "auto").1 "auto").1.daily_points = 2 :=
  c3_auto_uses_referral_before_daily {} ⟨0, 500⟩ { baseUser with referral_points := 2 }
    (by decide) (by decide) (by decide) (by decide)

/-- Counterexample for C1: a user holding one referral point (and the
default 3 daily points) runs an eligible, well-formed `/image`.  The
charge is taken from the referral balance, but the refund credits
`daily_points`, so `daily_points` ends at 4, not at its pre-call value
3 — the claimed invariance does not hold when the charged point came
from the referral balance. -/
theorem c1_image_refund_counterexample :
    (UserHandlers.handle_image_generation {} ⟨0, 600⟩
        { baseUser with referral_points := 1 } 2 10).2 = .refunded ∧
    ¬ (UserHandlers.handle_image_generation {} ⟨0, 600⟩
        { baseUser with referral_points := 1 } 2 10).1.daily_points =
      ({ baseUser with referral_points := 1 } : User).daily_points := by
  decide

/-- C1 (corrected): an eligible `/image` invocation with a well-formed
prompt of at least 5 characters always ends refunded, restoring
`total_points_used`, `image_generated` and the combined balance
`daily_points + referral_points`; but `daily_points` itself is restored
only when the charge came from the daily balance.  When a referral
point was charged, the refund credits `daily_points` instead, leaving
`daily_points` one higher and `referral_points` one lower than before
the call. -/
theorem c1_image_refund (s : Settings) (now : Wib) (u : User)
    (nCommandParts promptLen : Nat)
    (hb : u.is_banned = false) (hday : u.last_reset.day = now.day)
    (hpos : 0 < u.daily_points + u.referral_points)
    (hparts : 2 ≤ nCommandParts) (hlen : 5 ≤ promptLen) :
    (UserHandlers.handle_image_generation s now u nCommandParts promptLen).2 = .refunded ∧
    (UserHandlers.handle_image_generation s now u nCommandParts promptLen).1.total_points_used
      = u.total_points_used ∧
    (UserHandlers.handle_image_generation s now u nCommandParts promptLen).1.image_generated
      = u.image_generated ∧
    (UserHandlers.handle_image_generation s now u nCommandParts promptLen).1.daily_points +
      (UserHandlers.handle_image_generation s now u nCommandParts promptLen).1.referral_points
      = u.daily_points + u.referral_points ∧
    (u.referral_points ≤ 0 →
      (UserHandlers.handle_image_generation s now u nCommandParts promptLen).1.daily_points
        = u.daily_points ∧
      (UserHandlers.handle_image_generation s now u nCommandParts promptLen).1.referral_points
        = u.referral_points) ∧
    (0 < u.referral_points →
      (UserHandlers.handle_image_generation s now u nCommandParts promptLen).1.daily_points
        = u.daily_points + 1 ∧
      (UserHandlers.handle_image_generation s now u nCommandParts promptLen).1.referral_points
        = u.referral_points - 1) := by
  have h2 : ¬ nCommandParts < 2 := by omega
  have h5 : ¬ promptLen < 5 := by omega
  unfold UserHandlers.handle_image_generation
  rw [can_user_generate_image_same_day s now u hb hday]
  have hcan : decide (0 < u.daily_points + u.referral_points) = true := decide_eq_true hpos
  simp only [hcan, Bool.not_true, Bool.false_eq_true, if_false, if_neg h2, if_neg h5]
  rcases le_or_lt u.referral_points 0 with hrle | hrpos
  · rw [use_point_for_image_auto_daily s now u hb hday hpos hrle]
    simp
    omega
  · rw [use_point_for_image_auto_referral s now u hb hday hpos hrpos]
    simp
    omega

/-- Witness for C1: the amended refund law applied to a user with one
referral point and 3 daily points (the referral branch of the
conclusion is the one that fires). -/
theorem c1_image_refund_witness :
    0 < ({ baseUser with referral_points := 1 } : User).daily_points +
        ({ baseUser with referral_points := 1 } : User).referral_points ∧
    ((UserHandlers.handle_image_generation {} ⟨0, 600⟩
        { baseUser with referral_points := 1 } 2 10).2 = .refunded ∧
     (UserHandlers.handle_image_generation {} ⟨0, 600⟩
        { baseUser with referral_points := 1 } 2 10).1.total_points_used
       = ({ baseUser with referral_points := 1 } : User).total_points_used ∧
     (UserHandlers.handle_image_generation {} ⟨0, 600⟩
        { baseUser with referral_points := 1 } 2 10).1.image_generated
       = ({ baseUser with referral_points := 1 } : User).image_generated ∧
     (UserHandlers.handle_image_generation {} ⟨0, 600⟩
        { baseUser with referral_points := 1 } 2 10).1.daily_points +
       (UserHandlers.handle_image_generation {} ⟨0, 600⟩
        { baseUser with referral_points := 1 } 2 10).1.referral_points
       = ({ baseUser with referral_points := 1 } : User).daily_points +
         ({ baseUser with referral_points := 1 } : User).referral_points ∧
     (({ baseUser with referral_points := 1 } : User).referral_points ≤ 0 →
       (UserHandlers.handle_image_generation {} ⟨0, 600⟩
          { baseUser with referral_points := 1 } 2 10).1.daily_points
         = ({ baseUser with referral_points := 1 } : User).daily_points ∧
       (UserHandlers.handle_image_generation {} ⟨0, 600⟩
          { baseUser with referral_points := 1 } 2 10).1.referral_points
         = ({ baseUser with referral_points := 1 } : User).referral_points) ∧
     (0 < ({ baseUser with referral_points := 1 } : User).referral_points →
       (UserHandlers.handle_image_generation {} ⟨0, 600⟩
          { baseUser with referral_points := 1 } 2 10).1.daily_points
         = ({ baseUser with referral_points := 1 } : User).daily_points + 1 ∧
       (UserHandlers.handle_image_generation {} ⟨0, 600⟩
          { baseUser with referral_points := 1 } 2 10).1.referral_points
         = ({ baseUser with referral_points := 1 } : User).referral_points - 1)) :=
  ⟨by decide,
   c1_image_refund {} ⟨0, 600⟩ { baseUser with referral_points := 1 } 2 10
     (by decide) (by decide) (by decide) (by decide) (by decide)⟩

/-- C6 (confirmed): redeeming one's own code, or redeeming when
`referred_by` is already set (to a real, non-zero user id), makes
`process_referral` fail and leaves the whole user store — hence both
parties' points, counts and `referred_by` fields — untouched. -/
theorem c6_referral_guards (s : Settings) (store : List User) (nid : Int)
    (code : String) :
    (∀ r, UserService.get_user_by_referral_code store code = some r →
      r.user_id = nid →
      ReferralService.process_referral s store nid code =
        (false, "Anda tidak bisa menggunakan kode referral sendiri.", store)) ∧
    (∀ nu rb, UserService.get_user store nid = some nu →
      nu.referred_by = some rb → rb ≠ 0 →
      (ReferralService.process_referral s store nid code).1 = false ∧
      (ReferralService.process_referral s store nid code).2.2 = store) := by
  constructor
  · intro r hfind heq
    unfold ReferralService.process_referral
    rw [hfind]
    simp [heq]
  · intro nu rb hget hrb hne
    unfold ReferralService.process_referral
    cases hfc : UserService.get_user_by_referral_code store code with
    | none => simp
    | some referrer =>
      by_cases hself : referrer.user_id = nid
      · simp [hself]
      · simp [hself, hget, hrb, hne]

/-- Witness for C6: a two-user store; user 10 owns code `CODEAAAA` and
tries to redeem it themself; user 20 was already referred (by 55) and
tries to redeem user 10's code. -/
theorem c6_referral_guards_witness :
    (UserService.get_user_by_referral_code [{ baseUser with user_id := 10, referral_code := some "CODEAAAA" }, { baseUser with user_id := 20, referral_code := some "CODEBBBB", referred_by := some 55 }] "CODEAAAA" = some { baseUser with user_id := 10, referral_code := some "CODEAAAA" } ∧
     ReferralService.process_referral {} [{ baseUser with user_id := 10, referral_code := some "CODEAAAA" }, { baseUser with user_id := 20, referral_code := some "CODEBBBB", referred_by := some 55 }] 10 "CODEAAAA" =
       (false, "Anda tidak bisa menggunakan kode referral sendiri.", [{ baseUser with user_id := 10, referral_code := some "CODEAAAA" }, { baseUser with user_id := 20, referral_code := some "CODEBBBB", referred_by := some 55 }])) ∧
    ((ReferralService.process_referral {} [{ baseUser with user_id := 10, referral_code := some "CODEAAAA" }, { baseUser with user_id := 20, referral_code := some "CODEBBBB", referred_by := some 55 }] 20 "CODEAAAA").1 = false ∧
     (ReferralService.process_referral {} [{ baseUser with user_id := 10, referral_code := some "CODEAAAA" }, { baseUser with user_id := 20, referral_code := some "CODEBBBB", referred_by := some 55 }] 20 "CODEAAAA").2.2 =
       [{ baseUser with user_id := 10, referral_code := some "CODEAAAA" }, { baseUser with user_id := 20, referral_code := some "CODEBBBB", referred_by := some 55 }]) :=
  ⟨⟨by decide,
    (c6_referral_guards {} [{ baseUser with user_id := 10, referral_code := some "CODEAAAA" }, { baseUser with user_id := 20, referral_code := some "CODEBBBB", referred_by := some 55 }] 10 "CODEAAAA").1
      { baseUser with user_id := 10, referral_code := some "CODEAAAA" } (by decide) (by decide)⟩,
   (c6_referral_guards {} [{ baseUser with user_id := 10, referral_code := some "CODEAAAA" }, { baseUser with user_id := 20, referral_code := some "CODEBBBB", referred_by := some 55 }] 20 "CODEAAAA").2
     { baseUser with user_id := 20, referral_code := some "CODEBBBB", referred_by := some 55 } 55 (by decide) (by decide) (by decide)⟩

/-- C10 (confirmed): with a positive `limit`, `get_recent_messages`
returns the suffix of the last `min limit length` messages in their
stored order; with `limit = 0` or any negative `limit` the slice guard
fails and the entire message list is returned. -/
theorem c10_get_recent_messages (c : Conversation) (limit : Int) :
    (0 < limit →
      c.get_recent_messages limit =
        c.messages.drop (c.messages.length - limit.toNat) ∧
      (c.get_recent_messages limit).length = min limit.toNat c.messages.length ∧
      (c.get_recent_messages limit).IsSuffix c.messages) ∧
    (limit ≤ 0 → c.get_recent_messages limit = c.messages) := by
  constructor
  · intro h
    unfold Conversation.get_recent_messages
    rw [if_pos h]
    refine ⟨rfl, ?_, List.drop_suffix _ _⟩
    rw [List.length_drop]
    omega
  · intro h
    unfold Conversation.get_recent_messages
    rw [if_neg (not_lt.mpr h)]

/-- Witness for C10: three stored messages; `limit = 2` returns the
last two, `limit = -1` returns all three. -/
theorem c10_get_recent_messages_witness :
    ((0 : Int) < 2 ∧
      ({ emptyConversation with messages := [⟨"user", "a", "text", ⟨0, 1⟩⟩, ⟨"assistant", "b", "text", ⟨0, 2⟩⟩, ⟨"user", "c", "text", ⟨0, 3⟩⟩] } : Conversation).get_recent_messages 2 =
        [⟨"assistant", "b", "text", ⟨0, 2⟩⟩, ⟨"user", "c", "text", ⟨0, 3⟩⟩]) ∧
    ((-1 : Int) ≤ 0 ∧
      ({ emptyConversation with messages := [⟨"user", "a", "text", ⟨0, 1⟩⟩, ⟨"assistant", "b", "text", ⟨0, 2⟩⟩, ⟨"user", "c", "text", ⟨0, 3⟩⟩] } : Conversation).get_recent_messages (-1) =
        [⟨"user", "a", "text", ⟨0, 1⟩⟩, ⟨"assistant", "b", "text", ⟨0, 2⟩⟩, ⟨"user", "c", "text", ⟨0, 3⟩⟩]) :=
  ⟨⟨by decide,
    ((c10_get_recent_messages { emptyConversation with messages := [⟨"user", "a", "text", ⟨0, 1⟩⟩, ⟨"assistant", "b", "text", ⟨0, 2⟩⟩, ⟨"user", "c", "text", ⟨0, 3⟩⟩] } 2).1 (by decide)).1⟩,
   ⟨by decide,
    (c10_get_recent_messages { emptyConversation with messages := [⟨"user", "a", "text", ⟨0, 1⟩⟩, ⟨"assistant", "b", "text", ⟨0, 2⟩⟩, ⟨"user", "c", "text", ⟨0, 3⟩⟩] } (-1)).2 (by decide)⟩⟩

theorem drop_append_left (A B : List Message) (d : Nat) (hd : d ≤ A.length) :
    A.drop d ++ B = (A ++ B).drop d := by
  rw [List.drop_append_eq_append_drop, Nat.sub_eq_zero_of_le hd, List.drop_zero]

theorem add_message_messages (c : Conversation) (role content mt : String)
    (now : Wib) :
    (c.add_message role content mt now).messages =
      (c.messages ++
        [({ role := role, content := content, message_type := mt,
            timestamp := now } : Message)]).drop
        (c.messages.length + 1 - MAX_MEMORY_MESSAGES) := by
  by_cases h : MAX_MEMORY_MESSAGES < c.messages.length + 1
  · simp [Conversation.add_message, List.length_append, h]
  · have h0 : c.messages.length + 1 - MAX_MEMORY_MESSAGES = 0 :=
      Nat.sub_eq_zero_of_le (Nat.not_lt.mp h)
    simp [Conversation.add_message, List.length_append, h, h0]

theorem add_messages_messages_eq
    (items : List (String × String × String × Wib)) :
    ∀ c : Conversation, c.messages.length ≤ MAX_MEMORY_MESSAGES →
      (c.add_messages items).messages =
        (c.messages ++ items.map Conversation.pendingMessage).drop
          (c.messages.length + items.length - MAX_MEMORY_MESSAGES) := by
  induction items with
  | nil =>
    intro c h
    show c.messages =
      (c.messages ++ List.map Conversation.pendingMessage []).drop
        (c.messages.length + 0 - MAX_MEMORY_MESSAGES)
    rw [List.map_nil, List.append_nil, Nat.add_zero, Nat.sub_eq_zero_of_le h,
        List.drop_zero]
  | cons it rest ih =>
    intro c h
    have hstep : c.add_messages (it :: rest) =
        (c.add_message it.1 it.2.1 it.2.2.1 it.2.2.2).add_messages rest := rfl
    have hmsgs := add_message_messages c it.1 it.2.1 it.2.2.1 it.2.2.2
    have hlen : (c.add_message it.1 it.2.1 it.2.2.1 it.2.2.2).messages.length ≤
        MAX_MEMORY_MESSAGES := by
      rw [hmsgs, List.length_drop, List.length_append, List.length_singleton]
      omega
    rw [hstep, ih _ hlen, hmsgs, List.length_drop, List.length_append,
        List.length_singleton]
    rw [drop_append_left _ _ _
      (by rw [List.length_append, List.length_singleton]; exact Nat.sub_le _ _)]
    rw [List.drop_drop]
    have hx : ({ role := it.1, content := it.2.1, message_type := it.2.2.1, timestamp := it.2.2.2 } : Message) = Conversation.pendingMessage it := rfl
    rw [hx]
    congr 1
    · unfold MAX_MEMORY_MESSAGES at h ⊢
      simp only [List.length_cons]
      omega
    · rw [List.map_cons, List.append_assoc, List.singleton_append]

/-- C5 (confirmed): starting from any conversation holding at most 50
messages, any sequence of appends leaves at most 50 stored messages;
once the total ever exceeds 50 the store holds exactly 50, and the
stored sequence is precisely the suffix of the 50 most recent messages
of the appended stream, in original relative order (oldest evicted
first). -/
theorem c5_memory_capped (c : Conversation)
    (items : List (String × String × String × Wib))
    (hc : c.messages.length ≤ 50) :
    (c.add_messages items).messages.length ≤ 50 ∧
    (50 < c.messages.length + items.length →
      (c.add_messages items).messages.length = 50) ∧
    (c.add_messages items).messages =
      (c.messages ++ items.map Conversation.pendingMessage).drop
        (c.messages.length + items.length - 50) := by
  have h := add_messages_messages_eq items c hc
  refine ⟨?_, fun hgt => ?_, h⟩
  · rw [h, List.length_drop, List.length_append, List.length_map]
    unfold MAX_MEMORY_MESSAGES
    omega
  · rw [h, List.length_drop, List.length_append, List.length_map]
    unfold MAX_MEMORY_MESSAGES
    omega

/-- Witness for C5: appending 51 messages to an empty conversation
leaves exactly the last 50, i.e. the appended stream with its first
message dropped. -/
theorem c5_memory_capped_witness :
    emptyConversation.messages.length ≤ 50 ∧
    50 < emptyConversation.messages.length +
      ((List.range 51).map (fun i => ("user", "m", "text", (⟨0, i⟩ : Wib)))).length ∧
    (emptyConversation.add_messages
      ((List.range 51).map (fun i => ("user", "m", "text", (⟨0, i⟩ : Wib))))).messages.length = 50 ∧
    (emptyConversation.add_messages
      ((List.range 51).map (fun i => ("user", "m", "text", (⟨0, i⟩ : Wib))))).messages =
      (emptyConversation.messages ++
        ((List.range 51).map (fun i => ("user", "m", "text", (⟨0, i⟩ : Wib)))).map
          Conversation.pendingMessage).drop
        (emptyConversation.messages.length +
          ((List.range 51).map (fun i => ("user", "m", "text", (⟨0, i⟩ : Wib)))).length - 50) :=
  ⟨by decide, by decide,
   (c5_memory_capped emptyConversation
     ((List.range 51).map (fun i => ("user", "m", "text", (⟨0, i⟩ : Wib))))
     (by decide)).2.1 (by decide),
   (c5_memory_capped emptyConversation
     ((List.range 51).map (fun i => ("user", "m", "text", (⟨0, i⟩ : Wib))))
     (by decide)).2.2⟩

theorem length_filter_both (q : Int → Bool) (l : List Int) :
    (l.filter q).length + (l.filter (fun x => !q x)).length = l.length := by
  induction l with
  | nil => simp
  | cons x xs ih => by_cases h : q x <;> simp [h] <;> omega

theorem batches_count (p q : Int → Bool) :
    ∀ (n : Nat) (l : List Int) (acc : Nat × Nat), l.length ≤ n →
      (batchesAux n l).foldl
        (fun acc batch =>
          (acc.1 + ((batch.filter p).filter q).length,
           acc.2 + ((batch.filter p).filter (fun x => !q x)).length)) acc =
      (acc.1 + ((l.filter p).filter q).length,
       acc.2 + ((l.filter p).filter (fun x => !q x)).length) := by
  intro n
  induction n with
  | zero =>
    intro l acc h
    have hl : l = [] := List.length_eq_zero.mp (Nat.le_zero.mp h)
    subst hl
    simp [batchesAux]
  | succ n ih =>
    intro l acc h
    cases l with
    | nil => simp [batchesAux]
    | cons x xs =>
      simp only [List.length_cons] at h
      have hb : batchesAux (n + 1) (x :: xs) =
          (x :: xs).take 30 :: batchesAux n ((x :: xs).drop 30) := rfl
      rw [hb, List.foldl_cons,
          ih _ _ (by rw [List.length_drop]; simp only [List.length_cons]; omega)]
      simp [List.filter_append, Nat.add_assoc]
      refine ⟨?_, ?_⟩ <;>
      · rw [← List.length_append, ← List.filter_append, List.cons_append,
            List.take_append_drop]

/-- Counterexample for C7: a store whose only non-banned user is the
initiating admin (id 7).  The fetched id list is `[7]`, so
`total = 1`, but the admin is skipped when sending, so
`success = failed = 0`: `success + failed ≠ total`, and `total` is not
the number of eligible (non-banned, non-initiator) recipients either. -/
theorem c7_broadcast_counts_counterexample :
    (AdminHandlers.execute_broadcast [{ baseUser with user_id := 7 }] 7 (fun _ => true)).success +
      (AdminHandlers.execute_broadcast [{ baseUser with user_id := 7 }] 7 (fun _ => true)).failed ≠
      (AdminHandlers.execute_broadcast [{ baseUser with user_id := 7 }] 7 (fun _ => true)).total ∧
    (AdminHandlers.execute_broadcast [{ baseUser with user_id := 7 }] 7 (fun _ => true)).total ≠
      ((UserService.get_users_for_broadcast [{ baseUser with user_id := 7 }] true).filter
        (fun uid => uid != 7)).length := by
  decide

/-- C7 (corrected): `total` is the number of fetched non-banned users —
the initiating admin included when present — while the sends skip the
admin, so `success` and `failed` partition only the non-admin ids:
`success + failed` equals the number of non-banned, non-initiator
recipients (which is `total` minus the admin's occurrences, not always
`total`).  The displayed success rate is
`success / max(total, 1) * 100` rounded to one decimal place. -/
theorem c7_broadcast_counts (store : List User) (admin_id : Int)
    (sendOk : Int → Bool) :
    (AdminHandlers.execute_broadcast store admin_id sendOk).total =
      (UserService.get_users_for_broadcast store true).length ∧
    (AdminHandlers.execute_broadcast store admin_id sendOk).success =
      (((UserService.get_users_for_broadcast store true).filter
        (fun uid => uid != admin_id)).filter (fun uid => sendOk uid)).length ∧
    (AdminHandlers.execute_broadcast store admin_id sendOk).failed =
      (((UserService.get_users_for_broadcast store true).filter
        (fun uid => uid != admin_id)).filter (fun uid => !sendOk uid)).length ∧
    (AdminHandlers.execute_broadcast store admin_id sendOk).success +
      (AdminHandlers.execute_broadcast store admin_id sendOk).failed =
      ((UserService.get_users_for_broadcast store true).filter
        (fun uid => uid != admin_id)).length ∧
    CallbackHandlers.broadcast_rate
        (AdminHandlers.execute_broadcast store admin_id sendOk) =
      roundTo1
        (((AdminHandlers.execute_broadcast store admin_id sendOk).success : ℚ) /
          ((max (AdminHandlers.execute_broadcast store admin_id sendOk).total 1 : Nat) : ℚ) * 100) := by
  have hmain : AdminHandlers.execute_broadcast store admin_id sendOk =
      { success := (((UserService.get_users_for_broadcast store true).filter
          (fun uid => uid != admin_id)).filter (fun uid => sendOk uid)).length,
        failed := (((UserService.get_users_for_broadcast store true).filter
          (fun uid => uid != admin_id)).filter (fun uid => !sendOk uid)).length,
        total := (UserService.get_users_for_broadcast store true).length } := by
    unfold AdminHandlers.execute_broadcast
    by_cases hemp : (UserService.get_users_for_broadcast store true).isEmpty
    · have : UserService.get_users_for_broadcast store true = [] :=
        List.isEmpty_iff.mp hemp
      rw [this]
      simp
    · simp only [hemp, Bool.false_eq_true, if_false]
      rw [show batches (UserService.get_users_for_broadcast store true) =
            batchesAux (UserService.get_users_for_broadcast store true).length
              (UserService.get_users_for_broadcast store true) from rfl]
      rw [batches_count (fun uid => uid != admin_id) (fun uid => sendOk uid)
            (UserService.get_users_for_broadcast store true).length
            (UserService.get_users_for_broadcast store true) (0, 0) (le_refl _)]
      simp
  rw [hmain]
  refine ⟨rfl, rfl, rfl, ?_, rfl⟩
  exact length_filter_both (fun uid => sendOk uid)
    ((UserService.get_users_for_broadcast store true).filter (fun uid => uid != admin_id))

/-- Counterexample for C8: on the main bot with owner id 1, user 42 has
the database `is_admin` flag set, yet the admin check rejects them —
the flag is never consulted — and `/ban` performs no side effect,
answering with the access-denied reply instead. -/
theorem c8_admin_gate_counterexample :
    (UserService.get_user [flaggedAdminUser] 42).map User.is_admin = some true ∧
    AdminHandlers.is_admin ownerSettings mainBot 42 = false ∧
    AdminHandlers.handle_ban_user ownerSettings mainBot [flaggedAdminUser] 42
      (some (some 100000001)) = ([flaggedAdminUser], .denied) := by
  decide

/-- C8 (corrected): the admin check passes exactly for the configured
owner or, on a clone instance, the clone's designated admin — the
database-backed `is_admin` flag plays no part (the check does not even
read the user store).  A caller failing the check gets the fixed
access-denied reply and the handler leaves the store untouched; the
store changes only when the check passes.  `/addadmin` is gated on the
owner alone (with its own fixed owner-only refusal). -/
theorem c8_admin_gate (s : Settings) (b : BotInstance) (store : List User)
    (caller : Int) (arg : Option (Option Int)) :
    (AdminHandlers.is_admin s b caller = true ↔
      caller = s.OWNER_ID ∨ (b.is_clone = true ∧ caller = b.clone_admin_id)) ∧
    (AdminHandlers.is_admin s b caller = false →
      AdminHandlers.handle_ban_user s b store caller arg = (store, .denied)) ∧
    ((AdminHandlers.handle_ban_user s b store caller arg).1 ≠ store →
      AdminHandlers.is_admin s b caller = true) ∧
    ((AdminHandlers.handle_add_admin s store caller arg).1 ≠ store →
      TelegramBot.is_owner s caller = true) := by
  refine ⟨?_, fun hno => ?_, fun hch => ?_, fun hch => ?_⟩
  · unfold AdminHandlers.is_admin TelegramBot.is_admin TelegramBot.is_owner
    by_cases h1 : caller = s.OWNER_ID
    · simp [h1]
    · by_cases h2 : b.is_clone
      · by_cases h3 : caller = b.clone_admin_id <;> simp [h1, h2, h3]
      · simp [h1, h2]
  · unfold AdminHandlers.handle_ban_user
    rw [hno]
    simp
  · by_cases hadm : AdminHandlers.is_admin s b caller = true
    · exact hadm
    · exfalso
      apply hch
      unfold AdminHandlers.handle_ban_user
      rw [Bool.not_eq_true] at hadm
      rw [hadm]
      simp
  · by_cases hown : TelegramBot.is_owner s caller = true
    · exact hown
    · exfalso
      apply hch
      unfold AdminHandlers.handle_add_admin
      rw [Bool.not_eq_true] at hown
      rw [hown]
      simp

/-- Witness for C8: a non-admin caller (id 99) is denied with no store
change, while the owner (id 1) banning user 42 does change the store —
and indeed passes the check. -/
theorem c8_admin_gate_witness :
    (AdminHandlers.is_admin ownerSettings mainBot 99 = false ∧
     AdminHandlers.handle_ban_user ownerSettings mainBot [flaggedAdminUser] 99
       (some (some 42)) = ([flaggedAdminUser], .denied)) ∧
    ((AdminHandlers.handle_ban_user ownerSettings mainBot [flaggedAdminUser] 1
        (some (some 42))).1 ≠ [flaggedAdminUser] ∧
     AdminHandlers.is_admin ownerSettings mainBot 1 = true) :=
  ⟨⟨by decide,
    (c8_admin_gate ownerSettings mainBot [flaggedAdminUser] 99
      (some (some 42))).2.1 (by decide)⟩,
   ⟨by decide,
    (c8_admin_gate ownerSettings mainBot [flaggedAdminUser] 1
      (some (some 42))).2.2.1 (by decide)⟩⟩

theorem lastNewlineIdx_lt :
    ∀ (xs : List Char) (i : Nat), lastNewlineIdx xs = some i → i < xs.length := by
  intro xs
  induction xs with
  | nil => intro i h; simp [lastNewlineIdx] at h
  | cons c cs ih =>
    intro i h
    have hu : lastNewlineIdx (c :: cs) =
        (match lastNewlineIdx cs with
         | some j => some (j + 1)
         | none => if c = '\n' then some 0 else none) := rfl
    rw [hu] at h
    cases hrec : lastNewlineIdx cs with
    | some j =>
      rw [hrec] at h
      simp only [Option.some.injEq] at h
      have := ih j hrec
      simp only [List.length_cons]
      omega
    | none =>
      rw [hrec] at h
      by_cases hc : c = '\n'
      · rw [if_pos hc] at h
        simp only [Option.some.injEq] at h
        simp only [List.length_cons]
        omega
      · rw [if_neg hc] at h
        simp at h

theorem lastNewlineIdx_eq_none :
    ∀ xs : List Char, '\n' ∉ xs → lastNewlineIdx xs = none := by
  intro xs
  induction xs with
  | nil => intro; rfl
  | cons c cs ih =>
    intro h
    have hc : ¬ c = '\n' := fun he => h (he ▸ List.mem_cons_self c cs)
    have hcs : '\n' ∉ cs := fun hm => h (List.mem_cons_of_mem _ hm)
    have hu : lastNewlineIdx (c :: cs) =
        (match lastNewlineIdx cs with
         | some j => some (j + 1)
         | none => if c = '\n' then some 0 else none) := rfl
    rw [hu, ih hcs, if_neg hc]

theorem dropWhile_replicate_ne (p : Char → Bool) (a : Char) (hp : p a = false)
    (n : Nat) : (List.replicate n a).dropWhile p = List.replicate n a := by
  cases n with
  | zero => rfl
  | succ m =>
    rw [List.replicate_succ, List.dropWhile_cons, hp]
    simp

theorem splitLoop_chunk_le (maxLen : Nat) :
    ∀ (fuel : Nat) (text c : List Char),
      c ∈ splitLoop fuel text maxLen → c.length ≤ maxLen := by
  intro fuel
  induction fuel with
  | zero => intro text c hc; simp [splitLoop] at hc
  | succ f ih =>
    intro text c hc
    have hu : splitLoop (f + 1) text maxLen =
        (if maxLen < text.length then
          text.take ((rfindNewline text maxLen).getD maxLen) ::
            splitLoop f
              ((text.drop ((rfindNewline text maxLen).getD maxLen)).dropWhile
                (fun ch => ch == '\n')) maxLen
        else if text.isEmpty then [] else [text]) := rfl
    rw [hu] at hc
    by_cases h : maxLen < text.length
    · rw [if_pos h] at hc
      rcases List.mem_cons.mp hc with hhd | htl
      · subst hhd
        rw [List.length_take]
        cases hf : rfindNewline text maxLen with
        | some p =>
          have hp := lastNewlineIdx_lt (text.take maxLen) p hf
          rw [List.length_take] at hp
          simp [hf]
          omega
        | none =>
          simp [hf]
      · exact ih _ _ htl
    · rw [if_neg h] at hc
      by_cases he : text.isEmpty
      · simp [he] at hc
      · rw [if_neg he] at hc
        have : c = text := by simpa using hc
        subst this
        omega

theorem splitLoop_step_no_newline (fuel : Nat) (text : List Char) (maxLen : Nat)
    (h : maxLen < text.length) (hn : '\n' ∉ text.take maxLen) :
    splitLoop (fuel + 1) text maxLen =
      text.take maxLen ::
        splitLoop fuel ((text.drop maxLen).dropWhile (fun ch => ch == '\n'))
          maxLen := by
  have hfind : rfindNewline text maxLen = none :=
    lastNewlineIdx_eq_none _ hn
  have hu : splitLoop (fuel + 1) text maxLen =
      (if maxLen < text.length then
        text.take ((rfindNewline text maxLen).getD maxLen) ::
          splitLoop fuel
            ((text.drop ((rfindNewline text maxLen).getD maxLen)).dropWhile
              (fun ch => ch == '\n')) maxLen
      else if text.isEmpty then [] else [text]) := rfl
  rw [hu, if_pos h, hfind, Option.getD_none]

theorem splitLoop_step_newline (fuel : Nat) (text : List Char) (maxLen p : Nat)
    (h : maxLen < text.length) (hf : rfindNewline text maxLen = some p) :
    splitLoop (fuel + 1) text maxLen =
      text.take p ::
        splitLoop fuel ((text.drop p).dropWhile (fun ch => ch == '\n'))
          maxLen := by
  have hu : splitLoop (fuel + 1) text maxLen =
      (if maxLen < text.length then
        text.take ((rfindNewline text maxLen).getD maxLen) ::
          splitLoop fuel
            ((text.drop ((rfindNewline text maxLen).getD maxLen)).dropWhile
              (fun ch => ch == '\n')) maxLen
      else if text.isEmpty then [] else [text]) := rfl
  rw [hu, if_pos h, hf, Option.getD_some]

theorem splitLoop_done (fuel : Nat) (text : List Char) (maxLen : Nat)
    (h : ¬ maxLen < text.length) (hne : text ≠ []) :
    splitLoop (fuel + 1) text maxLen = [text] := by
  have hu : splitLoop (fuel + 1) text maxLen =
      (if maxLen < text.length then
        text.take ((rfindNewline text maxLen).getD maxLen) ::
          splitLoop fuel
            ((text.drop ((rfindNewline text maxLen).getD maxLen)).dropWhile
              (fun ch => ch == '\n')) maxLen
      else if text.isEmpty then [] else [text]) := rfl
  rw [hu, if_neg h, if_neg (by simpa using hne)]

theorem split_replicate_9000 :
    split_text_by_length (List.replicate 9000 'a') 4096 =
      [List.replicate 4096 'a', List.replicate 4096 'a',
       List.replicate 808 'a'] := by
  have hnl : ∀ n : Nat, ('\n' : Char) ∉ List.replicate n 'a' := by
    intro n hm
    exact absurd (List.eq_of_mem_replicate hm) (by decide)
  have hdw : ∀ n : Nat,
      (List.replicate n 'a').dropWhile (fun ch => ch == '\n') =
        List.replicate n 'a' :=
    dropWhile_replicate_ne (fun ch => ch == '\n') 'a' (by decide)
  unfold split_text_by_length
  rw [if_neg (by rw [List.length_replicate]; omega)]
  rw [List.length_replicate]
  rw [splitLoop_step_no_newline 9000 _ 4096 (by rw [List.length_replicate]; omega)
    (by rw [List.take_replicate]; exact hnl _)]
  rw [List.take_replicate, List.drop_replicate, hdw]
  rw [show min (4096 : Nat) 9000 = 4096 from rfl,
      show (9000 : Nat) - 4096 = 4904 from rfl]
  rw [show (9000 : Nat) = 8999 + 1 from rfl]
  rw [splitLoop_step_no_newline 8999 _ 4096 (by rw [List.length_replicate]; omega)
    (by rw [List.take_replicate]; exact hnl _)]
  rw [List.take_replicate, List.drop_replicate, hdw]
  rw [show min (4096 : Nat) 4904 = 4096 from rfl,
      show (4904 : Nat) - 4096 = 808 from rfl]
  rw [show (8999 : Nat) = 8998 + 1 from rfl]
  rw [splitLoop_done 8998 _ 4096 (by rw [List.length_replicate]; omega)
    (by intro he
        have h8 := congrArg List.length he
        rw [List.length_replicate, List.length_nil] at h8
        omega)]

/-- Counterexample for C9: the 9000-character no-newline message is NOT
split into a first chunk of 4096 characters plus the remainder as a
single chunk — the 4904-character remainder exceeds the limit and is
split again, giving three chunks (4096, 4096, 808). -/
theorem c9_split_counterexample :
    split_text_by_length (List.replicate 9000 'a') 4096 ≠
      [(List.replicate 9000 'a').take 4096,
       (List.replicate 9000 'a').drop 4096] := by
  rw [split_replicate_9000]
  intro h
  have hlen := congrArg List.length h
  simp only [List.length_cons, List.length_nil] at hlen
  omega

/-- C9 (corrected): no chunk produced by either splitter ever exceeds
4096 characters; when the first 4096 characters contain a newline the
first chunk ends at the last such newline; and a 9000-character
message without newlines is split into chunks of 4096, 4096 and 808
characters (the first chunk is exactly 4096 characters, but the
remainder itself is split again rather than kept whole). -/
theorem c9_split_message_chunks (text : List Char) :
    (∀ c, c ∈ split_text_by_length text 4096 → c.length ≤ 4096) ∧
    (∀ c, c ∈ TelegramBot.split_message text → c.length ≤ 4096) ∧
    (∀ p, 4096 < text.length → rfindNewline text 4096 = some p →
      (split_text_by_length text 4096).head? = some (text.take p)) ∧
    split_text_by_length (List.replicate 9000 'a') 4096 =
      [List.replicate 4096 'a', List.replicate 4096 'a',
       List.replicate 808 'a'] := by
  refine ⟨?_, ?_, ?_, split_replicate_9000⟩
  · intro c hc
    unfold split_text_by_length at hc
    by_cases h : text.length ≤ 4096
    · rw [if_pos h] at hc
      have : c = text := by simpa using hc
      subst this
      exact h
    · rw [if_neg h] at hc
      exact splitLoop_chunk_le 4096 _ _ _ hc
  · intro c hc
    exact splitLoop_chunk_le MAX_MESSAGE_LENGTH _ _ _ hc
  · intro p hlen hf
    unfold split_text_by_length
    rw [if_neg (by omega)]
    rw [splitLoop_step_newline text.length text 4096 p hlen hf]
    rfl

theorem lastNewlineIdx_replicate_append (a : Char)
    (l : List Char) (i : Nat) (hl : lastNewlineIdx l = some i) :
    ∀ n : Nat, lastNewlineIdx (List.replicate n a ++ l) = some (n + i) := by
  intro n
  induction n with
  | zero => simpa using hl
  | succ m ih =>
    rw [List.replicate_succ, List.cons_append]
    have hu : lastNewlineIdx (a :: (List.replicate m a ++ l)) =
        (match lastNewlineIdx (List.replicate m a ++ l) with
         | some j => some (j + 1)
         | none => if a = '\n' then some 0 else none) := rfl
    rw [hu, ih]
    simp only [Option.some.injEq]
    omega

theorem take_4096_of_newline_text :
    (List.replicate 4095 'b' ++ '\n' :: List.replicate 2 'x').take 4096 =
      List.replicate 4095 'b' ++ ['\n'] := by
  rw [List.take_append_eq_append_take]
  rw [List.take_of_length_le (by rw [List.length_replicate]; omega)]
  rw [List.length_replicate]
  rfl

theorem rfindNewline_newline_text :
    rfindNewline (List.replicate 4095 'b' ++ '\n' :: List.replicate 2 'x') 4096 =
      some 4095 := by
  unfold rfindNewline
  rw [take_4096_of_newline_text]
  have h := lastNewlineIdx_replicate_append 'b' ['\n'] 0 rfl 4095
  rw [show (4095 : Nat) + 0 = 4095 from rfl] at h
  exact h

theorem newline_text_length :
    4096 < (List.replicate 4095 'b' ++ '\n' :: List.replicate 2 'x').length := by
  rw [List.length_append, List.length_cons, List.length_replicate,
      List.length_replicate]
  omega

/-- Witness for C9: the bound instantiated on the two-character message
(one chunk of length 2), and the newline rule instantiated on a
4098-character message whose last newline inside the first 4096
characters sits at index 4095: the first chunk is the text up to that
newline. -/
theorem c9_split_message_chunks_witness :
    ((['a', 'b'] : List Char) ∈ split_text_by_length ['a', 'b'] 4096 ∧
     (['a', 'b'] : List Char).length ≤ 4096) ∧
    (4096 < (List.replicate 4095 'b' ++ '\n' :: List.replicate 2 'x').length ∧
     rfindNewline (List.replicate 4095 'b' ++ '\n' :: List.replicate 2 'x') 4096 =
       some 4095 ∧
     (split_text_by_length
        (List.replicate 4095 'b' ++ '\n' :: List.replicate 2 'x') 4096).head? =
       some ((List.replicate 4095 'b' ++ '\n' :: List.replicate 2 'x').take 4095)) :=
  ⟨⟨by decide, (c9_split_message_chunks ['a', 'b']).1 ['a', 'b'] (by decide)⟩,
   ⟨newline_text_length, rfindNewline_newline_text,
    (c9_split_message_chunks
      (List.replicate 4095 'b' ++ '\n' :: List.replicate 2 'x')).2.2.1 4095
      newline_text_length rfindNewline_newline_text⟩⟩
